import Mathlib

/-!
Shallow embedding of the chat backend in `backend/server.py` of the
mindfulmate-chatbot repository, together with proofs checking the
natural-language specification's claims against it.

Modelling conventions:
* `datetime.now(timezone.utc)` timestamps are modelled as `Nat` clock values
  supplied by an environment (`Env.now1/now2/now3`, one per call site of the
  chat handler, in program order).
* `uuid.uuid4()` identifiers are opaque strings supplied by the environment.
* MongoDB collections are lists in insertion (natural) order; `insert_one`
  appends, `update_one` rewrites the first matching document, and
  `find(filter).sort("timestamp", 1).to_list(n)` is modelled as
  filter, then a stable ascending sort on `timestamp`, then `take n`.
* The remote LLM call `chat.send_message` is an oracle
  `Env.backend : api_key → session_id → text → Except String String`;
  `Except.error e` stands for the call raising an exception whose string
  form is `e`, `Except.ok r` for it returning the reply `r`.
* A FastAPI handler either returns a value or raises `HTTPException`;
  the handler's result is `Except HTTPException α`, paired with the
  database state as it stands when the handler finishes (MongoDB writes
  are durable even when a later statement raises).
-/

/-- Embeds the `ChatMessage` pydantic model (server.py lines 47-52). -/
structure ChatMessageRec where
  id : String
  session_id : String
  sender : String
  message : String
  timestamp : Nat
deriving Repr, DecidableEq

/-- Embeds the `ChatSession` pydantic model (server.py lines 54-59). -/
structure ChatSessionRec where
  id : String
  user_id : String
  created_at : Nat
  updated_at : Nat
  title : String
deriving Repr, DecidableEq

/-- Embeds the `ChatRequest` pydantic model (server.py lines 61-63): a body
`{message: str, session_id: Optional[str]}`. Pydantic places no further
constraint on `message`: any string, the empty one included, validates. -/
structure ChatRequest where
  message : String
  session_id : Option String
deriving Repr, DecidableEq

/-- Embeds the `ChatResponse` pydantic model (server.py lines 65-68). -/
structure ChatResponse where
  message : String
  session_id : String
  timestamp : Nat
deriving Repr, DecidableEq

/-- Embeds FastAPI's `HTTPException(status_code, detail)`; its string form
(used when one exception is caught and wrapped in another) is
`"{status_code}: {detail}"` per starlette. -/
structure HTTPException where
  status_code : Nat
  detail : String
deriving Repr, DecidableEq

/-- The two MongoDB collections the chat routes touch, in natural
(insertion) order. -/
structure DB where
  chat_sessions : List ChatSessionRec
  chat_messages : List ChatMessageRec
deriving Repr, DecidableEq

/-- Environment of one `send_chat_message` call: the clock values produced by
the successive `datetime.now` calls, the fresh uuids, the
`EMERGENT_LLM_KEY` environment variable, and the LLM backend oracle. -/
structure Env where
  now1 : Nat
  now2 : Nat
  now3 : Nat
  freshSessionId : String
  freshUserMsgId : String
  freshAiMsgId : String
  api_key : Option String
  backend : String → String → String → Except String String

/-- Python truthiness of `request.session_id` as tested by
`if not session_id:` (server.py line 119): `None` and the empty string are
falsy, every other string is truthy. -/
def pyFalsy : Option String → Bool
  | none => true
  | some s => decide (s = "")

/-- The `ChatSession()` record built with all defaults (server.py line 121):
fresh uuid, anonymous user, both timestamps at the current time, constant
title. -/
def freshSession (env : Env) : ChatSessionRec :=
  { id := env.freshSessionId, user_id := "anonymous",
    created_at := env.now1, updated_at := env.now1,
    title := "Mental Wellness Chat" }

/-- The `ChatMessage(session_id=..., sender="user", message=request.message)`
record (server.py lines 132-136), timestamped by its default factory. -/
def user_message_obj (env : Env) (session_id text : String) : ChatMessageRec :=
  { id := env.freshUserMsgId, session_id := session_id, sender := "user",
    message := text, timestamp := env.now2 }

/-- The `ChatMessage(session_id=..., sender="assistant", message=ai_response,
timestamp=datetime.now(timezone.utc))` record (server.py lines 162-167). -/
def ai_message_obj (env : Env) (session_id text : String) : ChatMessageRec :=
  { id := env.freshAiMsgId, session_id := session_id, sender := "assistant",
    message := text, timestamp := env.now3 }

/-- Mongo `update_one({"id": session_id}, {"$set": {"updated_at": now}})`
(server.py lines 126-129): rewrites the first document whose `id` matches;
matching zero documents is a no-op, nothing is created. -/
def updateSessionTimestamp (sid : String) (now : Nat) :
    List ChatSessionRec → List ChatSessionRec
  | [] => []
  | s :: rest =>
    if s.id = sid then { s with updated_at := now } :: rest
    else s :: updateSessionTimestamp sid now rest

/-- Ascending order on message timestamps, the sort key of both history
queries. -/
def tsLe (a b : ChatMessageRec) : Prop := a.timestamp ≤ b.timestamp

instance : DecidableRel tsLe := fun a b => Nat.decLe a.timestamp b.timestamp

instance : IsTotal ChatMessageRec tsLe := ⟨fun a b => Nat.le_total a.timestamp b.timestamp⟩

instance : IsTrans ChatMessageRec tsLe := ⟨fun _ _ _ h1 h2 => Nat.le_trans h1 h2⟩

/-- Embeds the context fetch of `send_chat_message` (server.py lines
140-142): `find({"session_id": sid}).sort("timestamp", 1).to_list(50)`,
i.e. the session's messages sorted ascending by timestamp, truncated to the
first 50 documents the cursor yields. -/
def chatContext (msgs : List ChatMessageRec) (session_id : String) :
    List ChatMessageRec :=
  List.take 50
    (List.insertionSort tsLe (msgs.filter (fun m => m.session_id = session_id)))

/-- The "Get or create session" block of `send_chat_message` (server.py
lines 117-129): a falsy `session_id` leads to inserting a fresh
`ChatSession()`; otherwise `update_one` refreshes `updated_at` of the first
matching session document. Returns the updated store and the resolved
session id. -/
def resolveSession (env : Env) (db : DB) (request : ChatRequest) :
    DB × String :=
  if pyFalsy request.session_id then
    let session := freshSession env
    ({ db with chat_sessions := db.chat_sessions ++ [session] }, session.id)
  else
    let sid := request.session_id.getD ""
    ({ db with
        chat_sessions := updateSessionTimestamp sid env.now1 db.chat_sessions },
      sid)

/-- Embeds `send_chat_message` (server.py lines 114-178), the
`POST /api/chat` handler. In program order: resolve or create the session,
insert the user message, fetch the (unused) history context, check
`EMERGENT_LLM_KEY`, call the LLM, insert the assistant message, and return
`ChatResponse`. The whole body is wrapped in `try/except Exception`, which
re-raises any exception as `HTTPException(500, "Chat service error: " +
str(e))`; the missing-key `HTTPException(500, "LLM API key not configured")`
is itself caught there and re-wrapped via starlette's string form
`"500: LLM API key not configured"`. The returned `DB` is the state of the
store when the handler finishes, error or not. -/
def send_chat_message (env : Env) (db : DB) (request : ChatRequest) :
    DB × Except HTTPException ChatResponse :=
  let r := resolveSession env db request
  let session_id := r.2
  let user_msg := user_message_obj env session_id request.message
  let db2 : DB := { r.1 with chat_messages := r.1.chat_messages ++ [user_msg] }
  let _chat_history := chatContext db2.chat_messages session_id
  match env.api_key with
  | none =>
      (db2, Except.error
        { status_code := 500,
          detail := "Chat service error: 500: LLM API key not configured" })
  | some api_key =>
      match env.backend api_key session_id request.message with
      | Except.error e =>
          (db2, Except.error
            { status_code := 500, detail := "Chat service error: " ++ e })
      | Except.ok ai_response =>
          let ai_msg := ai_message_obj env session_id ai_response
          let db3 : DB :=
            { db2 with chat_messages := db2.chat_messages ++ [ai_msg] }
          (db3, Except.ok
            { message := ai_response, session_id := session_id,
              timestamp := ai_msg.timestamp })

/-- Embeds `get_chat_history` (server.py lines 180-190), the
`GET /api/chat/history/{session_id}` handler:
`find({"session_id": session_id}).sort("timestamp", 1).to_list(100)`. -/
def get_chat_history (db : DB) (session_id : String) : List ChatMessageRec :=
  List.take 100
    (List.insertionSort tsLe
      (db.chat_messages.filter (fun m => m.session_id = session_id)))

/-- The empty store, shared starting state of the concrete scenarios. -/
def dbEmpty : DB := { chat_sessions := [], chat_messages := [] }

/-- Concrete environment builder for the closed scenarios: fixed clock values
and uuids, a chosen `EMERGENT_LLM_KEY`, and a chosen backend oracle. -/
def mkEnv (key : Option String)
    (backend : String → String → String → Except String String) : Env :=
  { now1 := 1, now2 := 2, now3 := 3, freshSessionId := "sess-fresh",
    freshUserMsgId := "msg-user", freshAiMsgId := "msg-ai",
    api_key := key, backend := backend }

/-- The fields of a session record other than `updated_at`; used to state
that session resolution rewrites nothing but `updated_at`. -/
def sessionFixedPart (s : ChatSessionRec) : String × String × Nat × String :=
  (s.id, s.user_id, s.created_at, s.title)

/-! Helper lemmas about the embedded operations. -/

/-- Session resolution never touches the message collection. -/
theorem resolveSession_messages (env : Env) (db : DB) (req : ChatRequest) :
    (resolveSession env db req).1.chat_messages = db.chat_messages := by
  unfold resolveSession
  split <;> rfl

/-- With no `session_id` in the request, resolution inserts exactly the fresh
`ChatSession()` and resolves to its id. -/
theorem resolveSession_none (env : Env) (db : DB) (req : ChatRequest)
    (h : req.session_id = none) :
    resolveSession env db req =
      ({ db with chat_sessions := db.chat_sessions ++ [freshSession env] },
        env.freshSessionId) := by
  unfold resolveSession
  rw [h]
  rfl

/-- With a nonempty `session_id` in the request, resolution runs the
`update_one` refresh and resolves to that same id. -/
theorem resolveSession_some (env : Env) (db : DB) (req : ChatRequest)
    (sid : String) (h1 : req.session_id = some sid) (h2 : sid ≠ "") :
    resolveSession env db req =
      ({ db with
          chat_sessions := updateSessionTimestamp sid env.now1 db.chat_sessions },
        sid) := by
  unfold resolveSession
  rw [h1]
  show (if pyFalsy (some sid) then _ else _) = _
  rw [show pyFalsy (some sid) = false from decide_eq_false h2]
  rfl

/-- The `update_one` refresh rewrites at most `updated_at`: every other field
of every session document is untouched, and no document is added or
removed. -/
theorem updateSessionTimestamp_map_fixed (sid : String) (now : Nat)
    (l : List ChatSessionRec) :
    (updateSessionTimestamp sid now l).map sessionFixedPart =
      l.map sessionFixedPart := by
  induction l with
  | nil => rfl
  | cons s rest ih =>
    unfold updateSessionTimestamp
    split
    · rfl
    · simpa using ih

/-- The `update_one` refresh on an id no stored session carries is a no-op. -/
theorem updateSessionTimestamp_of_not_mem (sid : String) (now : Nat)
    (l : List ChatSessionRec) (h : ∀ s ∈ l, s.id ≠ sid) :
    updateSessionTimestamp sid now l = l := by
  induction l with
  | nil => rfl
  | cons s rest ih =>
    unfold updateSessionTimestamp
    rw [if_neg (h s (List.mem_cons_self s rest))]
    rw [ih (fun x hx => h x (List.mem_cons_of_mem s hx))]

/-- After the handler runs, the session collection is exactly what session
resolution left: none of the later steps writes to it. -/
theorem send_chat_message_sessions (env : Env) (db : DB) (req : ChatRequest) :
    (send_chat_message env db req).1.chat_sessions =
      (resolveSession env db req).1.chat_sessions := by
  unfold send_chat_message
  cases hk : env.api_key with
  | none => rfl
  | some key =>
    simp only []
    cases hb : env.backend key (resolveSession env db req).2 req.message with
    | error e => rfl
    | ok r => rfl

/-- Full characterization of the handler when the key is present and the
backend call returns a reply. -/
theorem send_chat_message_ok (env : Env) (db : DB) (req : ChatRequest)
    (key r : String) (hk : env.api_key = some key)
    (hb : ∀ k s t, env.backend k s t = Except.ok r) :
    send_chat_message env db req =
      ({ chat_sessions := (resolveSession env db req).1.chat_sessions,
         chat_messages := (resolveSession env db req).1.chat_messages ++
           [user_message_obj env (resolveSession env db req).2 req.message,
            ai_message_obj env (resolveSession env db req).2 r] },
       Except.ok
         { message := r, session_id := (resolveSession env db req).2,
           timestamp := env.now3 }) := by
  unfold send_chat_message
  simp only [hk, hb]
  rw [List.append_assoc]
  rfl

/-- Full characterization of the handler when the key is present and the
backend call raises. -/
theorem send_chat_message_err (env : Env) (db : DB) (req : ChatRequest)
    (key e : String) (hk : env.api_key = some key)
    (hb : ∀ k s t, env.backend k s t = Except.error e) :
    send_chat_message env db req =
      ({ chat_sessions := (resolveSession env db req).1.chat_sessions,
         chat_messages := (resolveSession env db req).1.chat_messages ++
           [user_message_obj env (resolveSession env db req).2 req.message] },
       Except.error
         { status_code := 500, detail := "Chat service error: " ++ e }) := by
  unfold send_chat_message
  simp only [hk, hb]

/-- Full characterization of the handler when `EMERGENT_LLM_KEY` is absent. -/
theorem send_chat_message_noKey (env : Env) (db : DB) (req : ChatRequest)
    (hk : env.api_key = none) :
    send_chat_message env db req =
      ({ chat_sessions := (resolveSession env db req).1.chat_sessions,
         chat_messages := (resolveSession env db req).1.chat_messages ++
           [user_message_obj env (resolveSession env db req).2 req.message] },
       Except.error
         { status_code := 500,
           detail := "Chat service error: 500: LLM API key not configured" }) := by
  unfold send_chat_message
  simp only [hk]

/-! Shared concrete scenario constants. -/

/-- A healthy environment: key configured, backend answering "hi". -/
def envOk : Env := mkEnv (some "key") (fun _ _ _ => Except.ok "hi")

/-- An environment with `EMERGENT_LLM_KEY` unset. -/
def envNoKey : Env := mkEnv none (fun _ _ _ => Except.ok "hi")

/-- A plain request opening a new session. -/
def reqHello : ChatRequest := { message := "hello", session_id := none }

/-- A stored session record with id "s1". -/
def sessA : ChatSessionRec :=
  { id := "s1", user_id := "anonymous", created_at := 0, updated_at := 0,
    title := "Mental Wellness Chat" }

/-! Claim theorems. -/

/-- C1, counterexample to the claim as stated: with the key configured and a
generation backend that raises ("backend timeout"), `send_chat_message` does
not return any fixed default check-in reply — it surfaces the failure to the
caller as `HTTPException` 500. -/
theorem c1_counterexample :
    (send_chat_message
        (mkEnv (some "key") (fun _ _ _ => Except.error "backend timeout"))
        dbEmpty { message := "hello", session_id := none }).2 =
      Except.error
        { status_code := 500,
          detail := "Chat service error: backend timeout" } := rfl

/-- C1, as amended: a generation-backend failure in `send_chat_message` is
never recovered into a default reply. A backend exception is surfaced to the
caller as `HTTPException` 500 with a "Chat service error" detail, and a
backend returning the empty string has that empty string returned verbatim
as the reply; no default check-in tier exists in this handler. -/
theorem c1_generation_failure_surfaced (env : Env) (db : DB)
    (req : ChatRequest) (key : String) (hk : env.api_key = some key) :
    (∀ e, (∀ k s t, env.backend k s t = Except.error e) →
      (send_chat_message env db req).2 =
        Except.error
          { status_code := 500, detail := "Chat service error: " ++ e }) ∧
    ((∀ k s t, env.backend k s t = Except.ok "") →
      ∃ resp, (send_chat_message env db req).2 = Except.ok resp ∧
        resp.message = "") := by
  constructor
  · intro e hb
    rw [send_chat_message_err env db req key e hk hb]
  · intro hb
    rw [send_chat_message_ok env db req key "" hk hb]
    exact ⟨_, rfl, rfl⟩

/-- C1, witness: the amended theorem applied to concrete raising and
empty-returning backends. -/
theorem c1_witness :
    ((send_chat_message
        (mkEnv (some "key") (fun _ _ _ => Except.error "oops"))
        dbEmpty reqHello).2 =
      Except.error
        { status_code := 500, detail := "Chat service error: " ++ "oops" }) ∧
    (∃ resp,
      (send_chat_message (mkEnv (some "key") (fun _ _ _ => Except.ok ""))
        dbEmpty reqHello).2 = Except.ok resp ∧ resp.message = "") :=
  ⟨(c1_generation_failure_surfaced
      (mkEnv (some "key") (fun _ _ _ => Except.error "oops"))
      dbEmpty reqHello "key" rfl).1 "oops" (fun _ _ _ => rfl),
   (c1_generation_failure_surfaced
      (mkEnv (some "key") (fun _ _ _ => Except.ok ""))
      dbEmpty reqHello "key" rfl).2 (fun _ _ _ => rfl)⟩

/-- C2, counterexample to the claim as stated: the same keyword-bearing
input "I am so ANXIOUS today" sent through two healthy backends yields two
different replies — the reply is the backend's output, not a fixed canned
text for the keyword, so no keyword mapping governs the handler. -/
theorem c2_counterexample :
    ((send_chat_message
        (mkEnv (some "key") (fun _ _ _ => Except.ok "reply one")) dbEmpty
        { message := "I am so ANXIOUS today", session_id := none }).2 =
      Except.ok
        { message := "reply one", session_id := "sess-fresh",
          timestamp := 3 }) ∧
    ((send_chat_message
        (mkEnv (some "key") (fun _ _ _ => Except.ok "reply two")) dbEmpty
        { message := "I am so ANXIOUS today", session_id := none }).2 =
      Except.ok
        { message := "reply two", session_id := "sess-fresh",
          timestamp := 3 }) ∧
    ("reply one" : String) ≠ "reply two" :=
  ⟨rfl, rfl, by decide⟩

/-- C2, as amended: `send_chat_message` performs no keyword scan; for every
input — keyword-bearing or not — a successful call returns the generation
backend's output verbatim as the reply. -/
theorem c2_reply_is_backend_output (env : Env) (db : DB) (req : ChatRequest)
    (key r : String) (hk : env.api_key = some key)
    (hb : ∀ k s t, env.backend k s t = Except.ok r) :
    ∃ resp, (send_chat_message env db req).2 = Except.ok resp ∧
      resp.message = r := by
  rw [send_chat_message_ok env db req key r hk hb]
  exact ⟨_, rfl, rfl⟩

/-- C2, witness: the amended theorem applied to the keyword-bearing input. -/
theorem c2_witness :
    ∃ resp,
      (send_chat_message envOk dbEmpty
        { message := "I am so ANXIOUS today", session_id := none }).2 =
        Except.ok resp ∧ resp.message = "hi" :=
  c2_reply_is_backend_output envOk dbEmpty
    { message := "I am so ANXIOUS today", session_id := none } "key" "hi"
    rfl (fun _ _ _ => rfl)

/-- C3, at the failing input: the empty message `""` (and the
whitespace-only `"   "`) is not rejected — `ChatRequest.message : str`
carries no validation — so the handler creates a session, persists the empty
user message, and answers normally, mutating state instead of surfacing a
validation error. -/
theorem c3_empty_message_accepted :
    ((send_chat_message envOk dbEmpty
        { message := "", session_id := none }).1.chat_sessions.length = 1) ∧
    ((send_chat_message envOk dbEmpty
        { message := "", session_id := none }).1.chat_messages.map
          (fun m => (m.sender, m.message)) =
      [("user", ""), ("assistant", "hi")]) ∧
    ((send_chat_message envOk dbEmpty
        { message := "", session_id := none }).2 =
      Except.ok
        { message := "hi", session_id := "sess-fresh", timestamp := 3 }) ∧
    ((send_chat_message envOk dbEmpty
        { message := "   ", session_id := none }).2 =
      Except.ok
        { message := "hi", session_id := "sess-fresh", timestamp := 3 }) :=
  ⟨rfl, rfl, rfl, rfl⟩

/-- C7: with `EMERGENT_LLM_KEY` absent, `send_chat_message` fails with a 5xx
service error surfaced to the caller — the missing credential is never
swallowed into a fallback reply (the result is an error, not a reply, for
every store, request and backend). -/
theorem c7_missing_key_error (env : Env) (db : DB) (req : ChatRequest)
    (hk : env.api_key = none) :
    (send_chat_message env db req).2 =
      Except.error
        { status_code := 500,
          detail := "Chat service error: 500: LLM API key not configured" } := by
  rw [send_chat_message_noKey env db req hk]

/-- C7, witness: the theorem applied to a concrete key-less environment. -/
theorem c7_witness :
    (send_chat_message envNoKey dbEmpty reqHello).2 =
      Except.error
        { status_code := 500,
          detail := "Chat service error: 500: LLM API key not configured" } :=
  c7_missing_key_error envNoKey dbEmpty reqHello rfl

/-- C10: when `EMERGENT_LLM_KEY` is absent the configuration error is raised
only after state has been mutated: the handler has already created the fresh
session (no-session_id case) or refreshed `updated_at` (existing-session
case) and has already persisted the user message by the time the key check
runs. -/
theorem c10_mutation_before_config_error (env : Env) (db : DB)
    (req : ChatRequest) (hk : env.api_key = none) :
    ((send_chat_message env db req).2 =
      Except.error
        { status_code := 500,
          detail := "Chat service error: 500: LLM API key not configured" }) ∧
    ((send_chat_message env db req).1.chat_messages =
      db.chat_messages ++
        [user_message_obj env (resolveSession env db req).2 req.message]) ∧
    (req.session_id = none →
      (send_chat_message env db req).1.chat_sessions =
        db.chat_sessions ++ [freshSession env]) ∧
    (∀ sid, req.session_id = some sid → sid ≠ "" →
      (send_chat_message env db req).1.chat_sessions =
        updateSessionTimestamp sid env.now1 db.chat_sessions) := by
  rw [send_chat_message_noKey env db req hk]
  refine ⟨rfl, ?_, ?_, ?_⟩
  · rw [resolveSession_messages]
  · intro h
    rw [resolveSession_none env db req h]
  · intro sid h1 h2
    rw [resolveSession_some env db req sid h1 h2]

/-- C10, witness: the theorem applied to a concrete key-less call opening a
new session. -/
theorem c10_witness :
    ((send_chat_message envNoKey dbEmpty reqHello).2 =
      Except.error
        { status_code := 500,
          detail := "Chat service error: 500: LLM API key not configured" }) ∧
    ((send_chat_message envNoKey dbEmpty reqHello).1.chat_messages =
      dbEmpty.chat_messages ++
        [user_message_obj envNoKey
          (resolveSession envNoKey dbEmpty reqHello).2 "hello"]) ∧
    ((send_chat_message envNoKey dbEmpty reqHello).1.chat_sessions =
      dbEmpty.chat_sessions ++ [freshSession envNoKey]) :=
  ⟨(c10_mutation_before_config_error envNoKey dbEmpty reqHello rfl).1,
   (c10_mutation_before_config_error envNoKey dbEmpty reqHello rfl).2.1,
   (c10_mutation_before_config_error envNoKey dbEmpty reqHello rfl).2.2.1 rfl⟩

/-- On a successful call the response carries the resolved session id. -/
theorem send_chat_message_resp_session (env : Env) (db : DB)
    (req : ChatRequest) (resp : ChatResponse)
    (h : (send_chat_message env db req).2 = Except.ok resp) :
    resp.session_id = (resolveSession env db req).2 := by
  unfold send_chat_message at h
  cases hk : env.api_key with
  | none => simp [hk] at h
  | some key =>
    simp only [hk] at h
    cases hb : env.backend key (resolveSession env db req).2 req.message with
    | error e => simp [hb] at h
    | ok ai =>
      simp only [hb, Except.ok.injEq] at h
      rw [← h]

/-- C5: on every successful call the user message is persisted strictly
before the assistant reply it precedes (both are appended, in that order, to
the message log), and the timestamp in the response equals the timestamp of
the stored assistant message. -/
theorem c5_user_before_assistant (env : Env) (db db' : DB)
    (req : ChatRequest) (resp : ChatResponse)
    (h : send_chat_message env db req = (db', Except.ok resp)) :
    ∃ userMsg aiMsg : ChatMessageRec,
      db'.chat_messages = db.chat_messages ++ [userMsg, aiMsg] ∧
      userMsg.sender = "user" ∧ userMsg.message = req.message ∧
      aiMsg.sender = "assistant" ∧ aiMsg.message = resp.message ∧
      resp.timestamp = aiMsg.timestamp := by
  simp only [send_chat_message] at h
  cases hk : env.api_key with
  | none => simp [hk] at h
  | some key =>
    simp only [hk] at h
    cases hb : env.backend key (resolveSession env db req).2 req.message with
    | error e => simp [hb] at h
    | ok ai =>
      simp only [hb, Prod.mk.injEq, Except.ok.injEq] at h
      obtain ⟨hdb, hresp⟩ := h
      refine ⟨user_message_obj env (resolveSession env db req).2 req.message,
              ai_message_obj env (resolveSession env db req).2 ai,
              ?_, rfl, rfl, rfl, ?_, ?_⟩
      · rw [← hdb]
        show ((resolveSession env db req).1.chat_messages ++ [_]) ++ [_] = _
        rw [resolveSession_messages, List.append_assoc]
        rfl
      · rw [← hresp]
        rfl
      · rw [← hresp]

/-- C5, witness: the theorem applied to a concrete successful call. -/
theorem c5_witness :
    ∃ userMsg aiMsg : ChatMessageRec,
      (send_chat_message envOk dbEmpty reqHello).1.chat_messages =
        dbEmpty.chat_messages ++ [userMsg, aiMsg] ∧
      userMsg.sender = "user" ∧ userMsg.message = "hello" ∧
      aiMsg.sender = "assistant" ∧ aiMsg.message = "hi" ∧
      (3 : Nat) = aiMsg.timestamp :=
  c5_user_before_assistant envOk dbEmpty
    (send_chat_message envOk dbEmpty reqHello).1 reqHello
    { message := "hi", session_id := "sess-fresh", timestamp := 3 } rfl

/-- C6: session resolution is idempotent on existing identifiers. Supplying
a (nonempty) `session_id` never adds a session record: every stored
session's id, user, creation time and title are untouched (at most
`updated_at` changes). Supplying no `session_id` appends exactly one fresh
`ChatSession()` record, and any successful response carries that fresh id. -/
theorem c6_session_resolution (env : Env) (db : DB) (req : ChatRequest) :
    (∀ sid, req.session_id = some sid → sid ≠ "" →
      (send_chat_message env db req).1.chat_sessions.map sessionFixedPart =
        db.chat_sessions.map sessionFixedPart) ∧
    (req.session_id = none →
      ((send_chat_message env db req).1.chat_sessions =
          db.chat_sessions ++ [freshSession env] ∧
        ∀ resp, (send_chat_message env db req).2 = Except.ok resp →
          resp.session_id = env.freshSessionId)) := by
  constructor
  · intro sid h1 h2
    rw [send_chat_message_sessions, resolveSession_some env db req sid h1 h2]
    exact updateSessionTimestamp_map_fixed sid env.now1 db.chat_sessions
  · intro h
    constructor
    · rw [send_chat_message_sessions, resolveSession_none env db req h]
    · intro resp hresp
      rw [send_chat_message_resp_session env db req resp hresp,
        resolveSession_none env db req h]

/-- C6, witness: the theorem applied to a call on the stored session "s1"
and to a call with no session id. -/
theorem c6_witness :
    ((send_chat_message envOk
        { chat_sessions := [sessA], chat_messages := [] }
        { message := "hi", session_id := some "s1" }).1.chat_sessions.map
          sessionFixedPart =
      ([sessA] : List ChatSessionRec).map sessionFixedPart) ∧
    ((send_chat_message envOk dbEmpty reqHello).1.chat_sessions =
        dbEmpty.chat_sessions ++ [freshSession envOk] ∧
      ∀ resp, (send_chat_message envOk dbEmpty reqHello).2 = Except.ok resp →
        resp.session_id = envOk.freshSessionId) :=
  ⟨(c6_session_resolution envOk
      { chat_sessions := [sessA], chat_messages := [] }
      { message := "hi", session_id := some "s1" }).1 "s1" rfl (by decide),
   (c6_session_resolution envOk dbEmpty reqHello).2 rfl⟩

/-- C9: a supplied `session_id` matching no stored session neither creates a
session nor fails: the `update_one` refresh matches zero records (the
session collection is unchanged), yet the user and assistant messages are
persisted under that id and the call succeeds — so the stored messages
reference a session that does not exist. -/
theorem c9_orphan_messages (env : Env) (db : DB) (sid text key r : String)
    (hsid : sid ≠ "")
    (hunknown : ∀ s ∈ db.chat_sessions, s.id ≠ sid)
    (hk : env.api_key = some key)
    (hb : ∀ k s t, env.backend k s t = Except.ok r) :
    ((send_chat_message env db
        { message := text, session_id := some sid }).1.chat_sessions =
      db.chat_sessions) ∧
    ((send_chat_message env db
        { message := text, session_id := some sid }).1.chat_messages =
      db.chat_messages ++
        [user_message_obj env sid text, ai_message_obj env sid r]) ∧
    (∃ resp,
      (send_chat_message env db
        { message := text, session_id := some sid }).2 = Except.ok resp ∧
      resp.session_id = sid) ∧
    (∀ s ∈ (send_chat_message env db
        { message := text, session_id := some sid }).1.chat_sessions,
      s.id ≠ sid) := by
  have hres := resolveSession_some env db
    { message := text, session_id := some sid } sid rfl hsid
  have hup := updateSessionTimestamp_of_not_mem sid env.now1
    db.chat_sessions hunknown
  rw [send_chat_message_ok env db
    { message := text, session_id := some sid } key r hk hb, hres, hup]
  exact ⟨rfl, rfl, ⟨_, rfl, rfl⟩, hunknown⟩

/-- C9, witness: the theorem applied to the unknown id "ghost" against a
store holding only session "s1". -/
theorem c9_witness :
    ((send_chat_message envOk
        { chat_sessions := [sessA], chat_messages := [] }
        { message := "hey", session_id := some "ghost" }).1.chat_sessions =
      [sessA]) ∧
    ((send_chat_message envOk
        { chat_sessions := [sessA], chat_messages := [] }
        { message := "hey", session_id := some "ghost" }).1.chat_messages =
      [] ++ [user_message_obj envOk "ghost" "hey",
             ai_message_obj envOk "ghost" "hi"]) ∧
    (∃ resp,
      (send_chat_message envOk
        { chat_sessions := [sessA], chat_messages := [] }
        { message := "hey", session_id := some "ghost" }).2 =
          Except.ok resp ∧
      resp.session_id = "ghost") ∧
    (∀ s ∈ (send_chat_message envOk
        { chat_sessions := [sessA], chat_messages := [] }
        { message := "hey", session_id := some "ghost" }).1.chat_sessions,
      s.id ≠ "ghost") :=
  c9_orphan_messages envOk
    { chat_sessions := [sessA], chat_messages := [] } "ghost" "hey" "key"
    "hi" (by decide)
    (by
      intro s hs
      rw [List.mem_singleton] at hs
      subst hs
      decide)
    rfl (fun _ _ _ => rfl)

/-- A session "s" holding 51 messages with timestamps 0..50, exercising the
context fetch past its 50-document cursor limit. -/
def c4Msgs : List ChatMessageRec :=
  (List.range 51).map (fun i =>
    { id := "m", session_id := "s", sender := "user", message := "x",
      timestamp := i })

/-- C4, at the failing input: with 51 stored messages (timestamps 0..50) the
context fetch returns the 50 OLDEST messages — timestamps 0..49, ascending —
and excludes the message with the latest timestamp 50, although such a
message is stored. The ascending sort followed by `to_list(50)` yields the
earliest 50, contradicting the claim (and the code's own "Last 50 messages"
comment) that the most recent 50 are fetched. -/
theorem c4_context_is_oldest_fifty :
    (chatContext c4Msgs "s").map (fun m => m.timestamp) = List.range 50 ∧
    50 ∉ (chatContext c4Msgs "s").map (fun m => m.timestamp) ∧
    (∃ m ∈ c4Msgs, m.timestamp = 50) :=
  ⟨by decide, by decide, by decide⟩

/-- A session "s" holding 101 messages with timestamps 0..100, exercising
the history endpoint past its 100-document cursor limit. -/
def c8Db : DB :=
  { chat_sessions := [],
    chat_messages := (List.range 101).map (fun i =>
      { id := "m", session_id := "s", sender := "user", message := "x",
        timestamp := i }) }

/-- C8, counterexample to the claim as stated: a session with 101 stored
messages gets only 100 of them back from the history endpoint, so the
operation does not return "the session's messages" for every session. -/
theorem c8_counterexample :
    (get_chat_history c8Db "s").length = 100 ∧
    (c8Db.chat_messages.filter (fun m => m.session_id = "s")).length = 101 :=
  ⟨by decide, by decide⟩

/-- C8, as amended: the history operation returns the session's messages in
ascending timestamp order truncated to the first 100 documents: the result
is always sorted, contains only that session's messages, equals (up to the
sort's reordering) the full message set whenever the session has at most
100 messages, and is the empty sequence — not an error — when the session
has none. -/
theorem c8_history_sorted_capped (db : DB) (sid : String) :
    List.Sorted tsLe (get_chat_history db sid) ∧
    (∀ m ∈ get_chat_history db sid, m.session_id = sid) ∧
    ((db.chat_messages.filter (fun m => m.session_id = sid)).length ≤ 100 →
      (get_chat_history db sid).Perm
        (db.chat_messages.filter (fun m => m.session_id = sid))) ∧
    (db.chat_messages.filter (fun m => m.session_id = sid) = [] →
      get_chat_history db sid = []) := by
  refine ⟨?_, ?_, ?_, ?_⟩
  · exact (List.sorted_insertionSort tsLe _).sublist
      (List.take_sublist 100 _)
  · intro m hm
    have hm1 := List.mem_of_mem_take hm
    have hm2 := (List.perm_insertionSort tsLe _).subset hm1
    exact of_decide_eq_true (List.mem_filter.mp hm2).2
  · intro hlen
    unfold get_chat_history
    rw [List.take_of_length_le
      (by rw [(List.perm_insertionSort tsLe _).length_eq]; exact hlen)]
    exact List.perm_insertionSort tsLe _
  · intro h
    unfold get_chat_history
    rw [h]
    rfl

/-- A store holding two out-of-order messages of session "s". -/
def c8SmallDb : DB :=
  { chat_sessions := [],
    chat_messages :=
      [{ id := "m1", session_id := "s", sender := "user", message := "a",
         timestamp := 5 },
       { id := "m2", session_id := "s", sender := "assistant", message := "b",
         timestamp := 2 }] }

/-- C8, witness: the amended theorem applied to a concrete two-message store
and to the empty store. -/
theorem c8_witness :
    List.Sorted tsLe (get_chat_history c8SmallDb "s") ∧
    (get_chat_history c8SmallDb "s").Perm
      (c8SmallDb.chat_messages.filter (fun m => m.session_id = "s")) ∧
    get_chat_history dbEmpty "s" = [] :=
  ⟨(c8_history_sorted_capped c8SmallDb "s").1,
   (c8_history_sorted_capped c8SmallDb "s").2.2.1 (by decide),
   (c8_history_sorted_capped dbEmpty "s").2.2.2 rfl⟩
